import Mathlib

/-!
Verification of the CV skill-extraction utility (`cv.py`).

The program is a linear pipeline: load an API key from the environment,
load the text of a CV file (`.txt` read verbatim, `.pdf` extracted page by
page), send the text with a fixed prompt to a remote model, and parse the
model's reply as JSON (falling back to a wrapped raw string when parsing
fails).  The development below embeds each function of the source
shallowly: the filesystem, the process environment and the remote client
become explicit functional parameters, Python exceptions become an
`Except` error type, and the external collaborator `json.loads` is
modelled by an executable JSON parser over the characters of the string.
-/

/-- JSON values as produced by `json.loads`.  Number tokens keep their
lexeme: no claim depends on numeric value semantics, only on the shape of
the parsed tree. -/
inductive Json where
  | null : Json
  | bool : Bool → Json
  | num : String → Json
  | str : String → Json
  | arr : List Json → Json
  | obj : List (String × Json) → Json

/-- Whether a JSON value is a mapping (a Python `dict`) at the top level. -/
def Json.isObj : Json → Bool
  | .obj _ => true
  | _ => false

/-- JSON insignificant whitespace, as accepted by Python's `json.loads`. -/
def isJsonWs (c : Char) : Bool :=
  c = ' ' || c = '\t' || c = '\n' || c = '\r'

/-- Drop leading JSON whitespace. -/
def skipWs : List Char → List Char
  | [] => []
  | c :: cs => if isJsonWs c then skipWs cs else c :: cs

/-- Value of a hexadecimal digit, if the character is one. -/
def hexDigit (c : Char) : Option Nat :=
  if '0' ≤ c ∧ c ≤ '9' then some (c.toNat - '0'.toNat)
  else if 'a' ≤ c ∧ c ≤ 'f' then some (c.toNat - 'a'.toNat + 10)
  else if 'A' ≤ c ∧ c ≤ 'F' then some (c.toNat - 'A'.toNat + 10)
  else none

/-- Parse the body of a JSON string literal (the opening quote already
consumed), decoding the escape sequences `json.loads` accepts and
rejecting unescaped control characters, as the strict decoder does. -/
def parseStringBody : Nat → List Char → Option (String × List Char)
  | 0, _ => none
  | _ + 1, [] => none
  | fuel + 1, c :: rest =>
    if c = '"' then some ("", rest)
    else if c = '\\' then
      match rest with
      | [] => none
      | e :: r =>
        let dec : Option (Char × List Char) :=
          if e = '"' then some ('"', r)
          else if e = '\\' then some ('\\', r)
          else if e = '/' then some ('/', r)
          else if e = 'b' then some ('\x08', r)
          else if e = 'f' then some ('\x0c', r)
          else if e = 'n' then some ('\n', r)
          else if e = 'r' then some ('\r', r)
          else if e = 't' then some ('\t', r)
          else if e = 'u' then
            match r with
            | h1 :: h2 :: h3 :: h4 :: r2 =>
              match hexDigit h1, hexDigit h2, hexDigit h3, hexDigit h4 with
              | some a, some b, some c2, some d =>
                some (Char.ofNat (((a * 16 + b) * 16 + c2) * 16 + d), r2)
              | _, _, _, _ => none
            | _ => none
          else none
        match dec with
        | none => none
        | some (d, r2) =>
          match parseStringBody fuel r2 with
          | none => none
          | some (s, r3) => some (String.mk (d :: s.data), r3)
    else if c.toNat < 0x20 then none
    else
      match parseStringBody fuel rest with
      | none => none
      | some (s, r2) => some (String.mk (c :: s.data), r2)

/-- Parse a JSON number token (maximal match of the decoder's number
regular expression), returning its lexeme. -/
def parseNumber (cs : List Char) : Option (Json × List Char) :=
  let (sign, cs1) : List Char × List Char :=
    match cs with
    | '-' :: r => (['-'], r)
    | _ => ([], cs)
  match cs1.span Char.isDigit with
  | ([], _) => none
  | (d0 :: ds, cs2) =>
    if d0 = '0' ∧ ds ≠ [] then none
    else
      let (fracPart, cs3) : List Char × List Char :=
        match cs2 with
        | '.' :: r =>
          match r.span Char.isDigit with
          | ([], _) => ([], cs2)
          | (fds, r2) => ('.' :: fds, r2)
        | _ => ([], cs2)
      let (expPart, cs4) : List Char × List Char :=
        match cs3 with
        | e :: r =>
          if e = 'e' ∨ e = 'E' then
            let (esign, r1) : List Char × List Char :=
              match r with
              | s :: r2 => if s = '+' ∨ s = '-' then ([s], r2) else ([], r)
              | [] => ([], r)
            match r1.span Char.isDigit with
            | ([], _) => ([], cs3)
            | (eds, r2) => (e :: (esign ++ eds), r2)
          else ([], cs3)
        | [] => ([], cs3)
      some (Json.num (String.mk (sign ++ (d0 :: ds) ++ fracPart ++ expPart)), cs4)

mutual

/-- Parse one JSON value, fuelled; every recursive call consumes at least
one character first, so fuel `length + 1` is enough at the top. -/
def parseValue : Nat → List Char → Option (Json × List Char)
  | 0, _ => none
  | fuel + 1, cs =>
    match skipWs cs with
    | [] => none
    | c :: r =>
      if c = 'n' then
        if r.take 3 = ['u', 'l', 'l'] then some (Json.null, r.drop 3) else none
      else if c = 't' then
        if r.take 3 = ['r', 'u', 'e'] then some (Json.bool true, r.drop 3) else none
      else if c = 'f' then
        if r.take 4 = ['a', 'l', 's', 'e'] then some (Json.bool false, r.drop 4) else none
      else if c = 'N' then
        if r.take 2 = ['a', 'N'] then some (Json.num "NaN", r.drop 2) else none
      else if c = 'I' then
        if r.take 7 = ['n', 'f', 'i', 'n', 'i', 't', 'y'] then
          some (Json.num "Infinity", r.drop 7)
        else none
      else if c = '"' then
        match parseStringBody (r.length + 1) r with
        | none => none
        | some (s, r2) => some (Json.str s, r2)
      else if c = '[' then
        match skipWs r with
        | ']' :: r2 => some (Json.arr [], r2)
        | cs2 =>
          match parseArrayItems fuel cs2 with
          | none => none
          | some (vs, r2) => some (Json.arr vs, r2)
      else if c = '{' then
        match skipWs r with
        | '}' :: r2 => some (Json.obj [], r2)
        | cs2 =>
          match parseObjectItems fuel cs2 with
          | none => none
          | some (kvs, r2) => some (Json.obj kvs, r2)
      else if c = '-' then
        if r.take 8 = ['I', 'n', 'f', 'i', 'n', 'i', 't', 'y'] then
          some (Json.num "-Infinity", r.drop 8)
        else parseNumber (c :: r)
      else if c.isDigit then parseNumber (c :: r)
      else none

/-- Parse the comma-separated items of a non-empty JSON array, positioned
at the first item; consumes the closing bracket. -/
def parseArrayItems : Nat → List Char → Option (List Json × List Char)
  | 0, _ => none
  | fuel + 1, cs =>
    match parseValue fuel cs with
    | none => none
    | some (v, r) =>
      match skipWs r with
      | ',' :: r2 =>
        match parseArrayItems fuel r2 with
        | none => none
        | some (vs, r3) => some (v :: vs, r3)
      | ']' :: r2 => some ([v], r2)
      | _ => none

/-- Parse the comma-separated entries of a non-empty JSON object,
positioned at the first key; consumes the closing brace. -/
def parseObjectItems : Nat → List Char → Option (List (String × Json) × List Char)
  | 0, _ => none
  | fuel + 1, cs =>
    match cs with
    | '"' :: r =>
      match parseStringBody (r.length + 1) r with
      | none => none
      | some (k, r1) =>
        match skipWs r1 with
        | ':' :: r2 =>
          match parseValue fuel r2 with
          | none => none
          | some (v, r3) =>
            match skipWs r3 with
            | ',' :: r4 =>
              match parseObjectItems fuel (skipWs r4) with
              | none => none
              | some (kvs, r5) => some ((k, v) :: kvs, r5)
            | '}' :: r4 => some ([(k, v)], r4)
            | _ => none
        | _ => none
    | _ => none

end

/-- `json.loads`: parse the whole string as one JSON document; anything
left over beyond trailing whitespace is a decode error (`none`). -/
def json_loads (s : String) : Option Json :=
  match parseValue (s.length + 1) s.data with
  | none => none
  | some (v, rest) => if skipWs rest = [] then some v else none


/-- The Python exceptions the program can surface.  `CVExtractorError` is
the single domain error kind of `cv.py`, carrying only a message; the
other constructors are the unhandled built-in exceptions that the modelled
code paths can raise. -/
inductive PyExn where
  | CVExtractorError : String → PyExn
  | IndexError : PyExn
  | UnicodeDecodeError : PyExn
  | PdfReadError : PyExn

/-- Content of a file on disk, as the two loaders observe it: either bytes
whose UTF-8 decoding is this text (raw, before any newline translation),
or a PDF whose pages yield these text segments under `PyPDF2`'s
`extract_text`, in document order. -/
inductive FileContent where
  | text : String → FileContent
  | pdf : List String → FileContent

/-- Python's universal-newline translation on a decoded text: `\r\n` and
a lone `\r` both become `\n`.  The flag records whether the previous
character was a `\r`, whose pending `\n` has already been emitted, so a
directly following `\n` is dropped. -/
def translateNewlinesAux : Bool → List Char → List Char
  | _, [] => []
  | prevCr, c :: rest =>
    if c = '\r' then '\n' :: translateNewlinesAux true rest
    else if c = '\n' then
      if prevCr then translateNewlinesAux false rest
      else '\n' :: translateNewlinesAux false rest
    else c :: translateNewlinesAux false rest

/-- Universal-newline translation of a whole decoded text. -/
def translateNewlines (l : List Char) : List Char :=
  translateNewlinesAux false l

/-- `Path.read_text(encoding="utf-8")` as a function of the file's decoded
UTF-8 content: text mode opens with `newline=None`, so the decoded text
comes back with universal newlines applied. -/
def universalNewlines (s : String) : String :=
  String.mk (translateNewlines s.data)

/-- The final component of a path (after the last separator, trailing
separators ignored), as `pathlib` computes `Path(p).name`. -/
def pathName (p : String) : String :=
  String.mk
    (((p.data.reverse.dropWhile (fun c => c == '/')).takeWhile
      (fun c => !(c == '/'))).reverse)

/-- `Path(p).suffix`: the extension of the final component — the segment
from its last dot, present only when that dot is neither the first nor the
last character of the name (`0 < i < len(name) - 1` around `rfind('.')`). -/
def pathSuffix (p : String) : String :=
  let name := (pathName p).data
  let revAfterDot := name.reverse.takeWhile (fun c => !(c == '.'))
  if revAfterDot.length = name.length then ""
  else
    let i := name.length - 1 - revAfterDot.length
    if 0 < i ∧ i < name.length - 1 then String.mk (name.drop i) else ""


/-- Python's `str.lower()` on the ASCII range (the only characters the
extension comparison against `".txt"`/`".pdf"` can match). -/
def strLower (s : String) : String :=
  String.mk (s.data.map Char.toLower)

/-- `load_cv_text` from `cv.py`.  The filesystem is the explicit map `fs`
from paths to file contents (`none` when the path does not exist), and
`pypdf2Available` says whether `import PyPDF2` succeeds in this runtime.
The function checks existence first, then dispatches on the lowercased
extension: `.txt` is read with `read_text` (text mode, so universal
newlines apply to the decoded content), `.pdf` is extracted page by page
and concatenated (binary mode, no translation), any other extension raises
the unsupported-format `CVExtractorError`. -/
def load_cv_text (fs : String → Option FileContent) (pypdf2Available : Bool)
    (cv_path : String) : Except PyExn String :=
  match fs cv_path with
  | none => .error (.CVExtractorError ("CV file not found: " ++ cv_path))
  | some content =>
    if strLower (pathSuffix cv_path) = ".txt" then
      match content with
      | .text s => .ok (universalNewlines s)
      | .pdf _ => .error .UnicodeDecodeError
    else if strLower (pathSuffix cv_path) = ".pdf" then
      if pypdf2Available then
        match content with
        | .pdf pages => .ok (pages.foldl (fun text page => text ++ page) "")
        | .text _ => .error .PdfReadError
      else
        .error (.CVExtractorError
          "PyPDF2 not installed. Install it with: pip install PyPDF2")
    else
      .error (.CVExtractorError
        ("Unsupported file format: " ++ pathSuffix cv_path ++ ". Use .txt or .pdf"))

/-- `python-dotenv`'s `load_dotenv()`: when a `.env` file is present, its
key/value pairs populate the process environment without overriding
variables already set; with no file the environment is unchanged. -/
def load_dotenv (dotenvFile : Option (List (String × String)))
    (env : String → Option String) : String → Option String :=
  fun k =>
    match env k with
    | some v => some v
    | none =>
      match dotenvFile with
      | none => none
      | some pairs => pairs.reverse.lookup k

/-- `load_api_key` from `cv.py`: run `load_dotenv`, then read
`ANTHROPIC_API_KEY` from the resulting environment; a missing or empty
value (both falsy in `if not api_key`) raises the missing-credential
`CVExtractorError`. -/
def load_api_key (dotenvFile : Option (List (String × String)))
    (env : String → Option String) : Except PyExn String :=
  let env1 := load_dotenv dotenvFile env
  match env1 "ANTHROPIC_API_KEY" with
  | none =>
    .error (.CVExtractorError
      "Missing ANTHROPIC_API_KEY in environment. Set it in your .env file.")
  | some api_key =>
    if api_key = "" then
      .error (.CVExtractorError
        "Missing ANTHROPIC_API_KEY in environment. Set it in your .env file.")
    else .ok api_key

/-- One message of an Anthropic chat request. -/
structure ChatMessage where
  role : String
  content : String

/-- The request `extract_cv_with_llm` sends through
`client.messages.create`. -/
structure ApiRequest where
  model : String
  maxTokens : Nat
  messages : List ChatMessage

/-- One content block of an Anthropic response message. -/
structure ContentBlock where
  text : String

/-- The response message returned by `client.messages.create`: a list of
content blocks. -/
structure ApiMessage where
  content : List ContentBlock

/-- The request built by `extract_cv_with_llm`: fixed model identifier,
fixed token budget, and a single user message gluing the prompt and the CV
text around a literal separator line. -/
def anthropicRequest (prompt cv_text : String) : ApiRequest :=
  ⟨"claude-3-haiku-20240307", 2048,
    [⟨"user", prompt ++ "\n\n---CV CONTENT---\n\n" ++ cv_text⟩]⟩

/-- `extract_cv_with_llm` from `cv.py`.  The remote client is the explicit
function `client`, taking the API key and the request to the response
message.  The code indexes `message.content[0]` — an `IndexError` when the
content list is empty — then parses the block's text as JSON, returning
the parsed value on success and the wrapped raw string on
`JSONDecodeError`. -/
def extract_cv_with_llm (cv_text : String) (api_key : String) (prompt : String)
    (client : String → ApiRequest → ApiMessage) : Except PyExn Json :=
  let message := client api_key (anthropicRequest prompt cv_text)
  match message.content with
  | [] => .error .IndexError
  | block :: _ =>
    let response_text := block.text
    match json_loads response_text with
    | some v => .ok v
    | none => .ok (Json.obj [("raw_response", Json.str response_text)])

/-- The fixed categorisation prompt of `extract_skills`. -/
def skillsPrompt : String :=
  "Extract all skills from this CV. Categorize them as follows:\n- Technical Skills: programming languages, tools, frameworks, technologies\n- Professional Skills: soft skills, methodologies, certifications\n- Domain Skills: industry-specific expertise\n\nReturn ONLY valid JSON with this structure:\n\x7b\n  \"technical_skills\": [\"skill1\", \"skill2\", ...],\n  \"professional_skills\": [\"skill1\", \"skill2\", ...],\n  \"domain_skills\": [\"skill1\", \"skill2\", ...]\n\x7d"

/-- `extract_skills` from `cv.py`: delegate to `extract_cv_with_llm` with
the fixed prompt. -/
def extract_skills (cv_text : String) (api_key : String)
    (client : String → ApiRequest → ApiMessage) : Except PyExn Json :=
  extract_cv_with_llm cv_text api_key skillsPrompt client

/-- A mocked Extraction Client that answers every request with a single
content block holding the given string. -/
def constClient (s : String) : String → ApiRequest → ApiMessage :=
  fun _ _ => ⟨[⟨s⟩]⟩

/-- Universal-newline translation is the identity on texts holding no
carriage return. -/
theorem translateNewlines_of_no_cr (l : List Char) (h : ∀ c ∈ l, c ≠ '\r') :
    translateNewlines l = l := by
  show translateNewlinesAux false l = l
  induction l with
  | nil => rfl
  | cons c rest ih =>
    have hc : c ≠ '\r' := h c (List.mem_cons_self c rest)
    have hrest : ∀ d ∈ rest, d ≠ '\r' := fun d hd => h d (List.mem_cons_of_mem c hd)
    simp only [translateNewlinesAux, if_neg hc]
    by_cases hn : c = '\n'
    · subst hn
      simp [ih hrest]
    · simp [hn, ih hrest]

/-- Claim C2 (counterexample): a `.txt` file is not returned byte-for-byte
verbatim.  A file whose decoded content is `"a\r\nb"` is read back as
`"a\nb"`: `read_text` opens the file in text mode, so universal-newline
translation rewrites the CRLF. -/
theorem load_cv_text_txt_not_byte_verbatim :
    load_cv_text
      (fun q => if q = "cv.txt" then some (FileContent.text "a\r\nb") else none)
      true "cv.txt" = .ok "a\nb" ∧ "a\nb" ≠ "a\r\nb" :=
  ⟨rfl, by decide⟩

/-- Claim C2 (amended): for every existing path whose lowercased extension
is `.txt`, `load_cv_text` returns the file's decoded UTF-8 content with
universal newlines applied (`\r\n` and `\r` become `\n`); for a file whose
content holds no carriage return, this is the raw content verbatim. -/
theorem load_cv_text_txt_universal_newlines :
    (∀ (fs : String → Option FileContent) (pypdf2Available : Bool) (p s : String),
        fs p = some (FileContent.text s) → strLower (pathSuffix p) = ".txt" →
        load_cv_text fs pypdf2Available p = .ok (universalNewlines s)) ∧
    (∀ (fs : String → Option FileContent) (pypdf2Available : Bool) (p s : String),
        fs p = some (FileContent.text s) → strLower (pathSuffix p) = ".txt" →
        (∀ c ∈ s.data, c ≠ '\r') →
        load_cv_text fs pypdf2Available p = .ok s) := by
  have base : ∀ (fs : String → Option FileContent) (pypdf2Available : Bool) (p s : String),
      fs p = some (FileContent.text s) → strLower (pathSuffix p) = ".txt" →
      load_cv_text fs pypdf2Available p = .ok (universalNewlines s) := by
    intro fs pypdf2Available p s hfs hsuf
    simp [load_cv_text, hfs, hsuf]
  refine ⟨base, ?_⟩
  intro fs pypdf2Available p s hfs hsuf hcr
  have hid : universalNewlines s = s := by
    show String.mk (translateNewlines s.data) = s
    rw [translateNewlines_of_no_cr s.data hcr]
  rw [base fs pypdf2Available p s hfs hsuf, hid]

/-- Witness for the amended C2: a CRLF/CR file comes back translated, a
CR-free file comes back verbatim. -/
theorem load_cv_text_txt_universal_newlines_witness :
    load_cv_text
      (fun q => if q = "cv.txt" then some (FileContent.text "a\r\nb\rc") else none)
      true "cv.txt" = .ok "a\nb\nc" ∧
    load_cv_text
      (fun q => if q = "crfree.txt" then some (FileContent.text "Skills: Lean\n") else none)
      true "crfree.txt" = .ok "Skills: Lean\n" :=
  ⟨load_cv_text_txt_universal_newlines.1 _ true "cv.txt" "a\r\nb\rc" rfl rfl,
   load_cv_text_txt_universal_newlines.2 _ true "crfree.txt" "Skills: Lean\n" rfl rfl
     (by decide)⟩

/-- Claim C5 (confirmed): for every path missing from the filesystem,
whatever its extension, `load_cv_text` raises the not-found
`CVExtractorError`, whose message names the missing file; the existence
check precedes any extension dispatch. -/
theorem load_cv_text_missing_notfound (fs : String → Option FileContent)
    (pypdf2Available : Bool) (p : String)
    (hfs : fs p = none) :
    load_cv_text fs pypdf2Available p
      = .error (.CVExtractorError ("CV file not found: " ++ p)) := by
  simp [load_cv_text, hfs]

/-- Witness for C5 at an empty filesystem and a `.docx` path: the missing
file wins over the unsupported extension. -/
theorem load_cv_text_missing_notfound_witness :
    load_cv_text (fun _ => none) true "missing.docx"
      = .error (.CVExtractorError "CV file not found: missing.docx") :=
  load_cv_text_missing_notfound (fun _ => none) true "missing.docx" rfl

/-- Claim C6 (confirmed): an existing file whose lowercased extension is
neither `.txt` nor `.pdf` (a no-extension path included) raises the
unsupported-format `CVExtractorError`, while the uppercase variants
`.TXT` and `.Pdf` are accepted by the text and PDF branches
respectively. -/
theorem load_cv_text_unsupported_format :
    (∀ (fs : String → Option FileContent) (pypdf2Available : Bool) (p : String)
        (c : FileContent), fs p = some c →
        strLower (pathSuffix p) ≠ ".txt" → strLower (pathSuffix p) ≠ ".pdf" →
        load_cv_text fs pypdf2Available p
          = .error (.CVExtractorError
              ("Unsupported file format: " ++ pathSuffix p ++ ". Use .txt or .pdf"))) ∧
    (∀ (fs : String → Option FileContent) (s : String),
        fs "cv.TXT" = some (FileContent.text s) →
        load_cv_text fs true "cv.TXT" = .ok (universalNewlines s)) ∧
    (∀ (fs : String → Option FileContent) (pages : List String),
        fs "cv.Pdf" = some (FileContent.pdf pages) →
        load_cv_text fs true "cv.Pdf"
          = .ok (pages.foldl (fun text page => text ++ page) "")) := by
  refine ⟨?_, ?_, ?_⟩
  · intro fs pypdf2Available p c hfs ht hp
    simp [load_cv_text, hfs, ht, hp]
  · intro fs s hfs
    simp [load_cv_text, hfs, show strLower (pathSuffix "cv.TXT") = ".txt" from rfl]
  · intro fs pages hfs
    simp [load_cv_text, hfs, show strLower (pathSuffix "cv.Pdf") = ".pdf" from rfl,
      show strLower (pathSuffix "cv.Pdf") ≠ ".txt" from by decide]

/-- Witness for C6: a `.docx` file is rejected as unsupported, while
`.TXT` and `.Pdf` files are loaded by their branches. -/
theorem load_cv_text_unsupported_format_witness :
    load_cv_text (fun q => if q = "cv.docx" then some (FileContent.text "x") else none)
      true "cv.docx"
      = .error (.CVExtractorError "Unsupported file format: .docx. Use .txt or .pdf") ∧
    load_cv_text (fun q => if q = "cv.TXT" then some (FileContent.text "hello") else none)
      true "cv.TXT" = .ok "hello" ∧
    load_cv_text (fun q => if q = "cv.Pdf" then some (FileContent.pdf ["a", "b"]) else none)
      true "cv.Pdf" = .ok "ab" :=
  ⟨load_cv_text_unsupported_format.1 _ true "cv.docx" _ rfl (by decide) (by decide),
   load_cv_text_unsupported_format.2.1 _ "hello" rfl,
   load_cv_text_unsupported_format.2.2 _ ["a", "b"] rfl⟩

/-- Claim C8 (confirmed): for a readable PDF file (the extraction library
available), `load_cv_text` returns the page texts concatenated in document
order with no separator, starting from the empty accumulator. -/
theorem load_cv_text_pdf_concat (fs : String → Option FileContent)
    (p : String) (pages : List String)
    (hfs : fs p = some (FileContent.pdf pages))
    (hsuf : strLower (pathSuffix p) = ".pdf") :
    load_cv_text fs true p
      = .ok (pages.foldl (fun text page => text ++ page) "") := by
  have ht : strLower (pathSuffix p) ≠ ".txt" := by
    rw [hsuf]; decide
  simp [load_cv_text, hfs, hsuf, ht]

/-- Witness for C8: a two-page PDF yields the bare concatenation of its
page texts. -/
theorem load_cv_text_pdf_concat_witness :
    load_cv_text
      (fun q => if q = "cv.pdf" then some (FileContent.pdf ["Page one. ", "Page two."]) else none)
      true "cv.pdf" = .ok "Page one. Page two." :=
  load_cv_text_pdf_concat _ "cv.pdf" ["Page one. ", "Page two."] rfl rfl

/-- Claim C7 (confirmed): whenever `ANTHROPIC_API_KEY` is unset or empty
in the environment resulting from the optional `.env` load,
`load_api_key` raises the missing-credential `CVExtractorError`, whose
message names the variable and says how to set it. -/
theorem load_api_key_missing_credential
    (dotenvFile : Option (List (String × String))) (env : String → Option String)
    (h : load_dotenv dotenvFile env "ANTHROPIC_API_KEY" = none ∨
         load_dotenv dotenvFile env "ANTHROPIC_API_KEY" = some "") :
    load_api_key dotenvFile env
      = .error (.CVExtractorError
          "Missing ANTHROPIC_API_KEY in environment. Set it in your .env file.") := by
  rcases h with h | h <;> simp [load_api_key, h]

/-- Witness for C7 at an empty environment with no `.env` file. -/
theorem load_api_key_missing_credential_witness :
    load_api_key none (fun _ => none)
      = .error (.CVExtractorError
          "Missing ANTHROPIC_API_KEY in environment. Set it in your .env file.") :=
  load_api_key_missing_credential none (fun _ => none) (Or.inl rfl)

/-- Claim C10 (confirmed): whenever `ANTHROPIC_API_KEY` resolves to a
non-empty string, `load_api_key` returns it verbatim — no trimming and no
validation, so a whitespace-only value passes as present. -/
theorem load_api_key_nonempty_verbatim
    (dotenvFile : Option (List (String × String))) (env : String → Option String)
    (k : String)
    (h : load_dotenv dotenvFile env "ANTHROPIC_API_KEY" = some k)
    (hk : k ≠ "") :
    load_api_key dotenvFile env = .ok k := by
  simp [load_api_key, h, hk]

/-- Witness for C10: the whitespace-only key value `" "` is returned
unchanged. -/
theorem load_api_key_nonempty_verbatim_witness :
    load_api_key none (fun n => if n = "ANTHROPIC_API_KEY" then some " " else none)
      = .ok " " :=
  load_api_key_nonempty_verbatim none
    (fun n => if n = "ANTHROPIC_API_KEY" then some " " else none) " " rfl (by decide)

/-- Claim C9 (confirmed): when the API response's content list is empty,
`extract_cv_with_llm` surfaces the unhandled built-in `IndexError` from
`message.content[0]` — neither the domain `CVExtractorError` nor the
`raw_response` fallback. -/
theorem extract_cv_with_llm_empty_content_index_error
    (cv_text api_key prompt : String) (client : String → ApiRequest → ApiMessage)
    (h : (client api_key (anthropicRequest prompt cv_text)).content = []) :
    extract_cv_with_llm cv_text api_key prompt client = .error .IndexError := by
  simp [extract_cv_with_llm, h]

/-- Witness for C9 at a client that answers with an empty content list. -/
theorem extract_cv_with_llm_empty_content_index_error_witness :
    extract_cv_with_llm "cv" "key" "prompt" (fun _ _ => ⟨[]⟩) = .error .IndexError :=
  extract_cv_with_llm_empty_content_index_error "cv" "key" "prompt" (fun _ _ => ⟨[]⟩) rfl

/-- Claim C3 (confirmed): whenever the model's response text parses as
JSON, `extract_skills` returns the parsed value as-is, with no check that
the three expected keys are present. -/
theorem extract_skills_parse_passthrough
    (cv_text api_key : String) (client : String → ApiRequest → ApiMessage)
    (b : ContentBlock) (rest : List ContentBlock) (v : Json)
    (hresp : (client api_key (anthropicRequest skillsPrompt cv_text)).content = b :: rest)
    (hparse : json_loads b.text = some v) :
    extract_skills cv_text api_key client = .ok v := by
  simp [extract_skills, extract_cv_with_llm, hresp, hparse]

/-- Witness for C3 at the spec's test response: the literal JSON object
with the three keys parses and is returned exactly. -/
theorem extract_skills_parse_passthrough_witness :
    json_loads "\x7b\"technical_skills\": [\"Python\"], \"professional_skills\": [], \"domain_skills\": []\x7d"
      = some (Json.obj [("technical_skills", Json.arr [Json.str "Python"]),
          ("professional_skills", Json.arr []), ("domain_skills", Json.arr [])]) ∧
    extract_skills "cv" "key"
      (constClient "\x7b\"technical_skills\": [\"Python\"], \"professional_skills\": [], \"domain_skills\": []\x7d")
      = .ok (Json.obj [("technical_skills", Json.arr [Json.str "Python"]),
          ("professional_skills", Json.arr []), ("domain_skills", Json.arr [])]) :=
  ⟨rfl,
   extract_skills_parse_passthrough "cv" "key"
     (constClient "\x7b\"technical_skills\": [\"Python\"], \"professional_skills\": [], \"domain_skills\": []\x7d")
     ⟨"\x7b\"technical_skills\": [\"Python\"], \"professional_skills\": [], \"domain_skills\": []\x7d"⟩
     [] _ rfl rfl⟩

/-- Claim C4 (confirmed): whenever the model's response text does not
parse as JSON, `extract_skills` raises nothing and returns exactly the
single-key fallback mapping wrapping the original string. -/
theorem extract_skills_parse_failure_fallback
    (cv_text api_key : String) (client : String → ApiRequest → ApiMessage)
    (b : ContentBlock) (rest : List ContentBlock)
    (hresp : (client api_key (anthropicRequest skillsPrompt cv_text)).content = b :: rest)
    (hparse : json_loads b.text = none) :
    extract_skills cv_text api_key client
      = .ok (Json.obj [("raw_response", Json.str b.text)]) := by
  simp [extract_skills, extract_cv_with_llm, hresp, hparse]

/-- Witness for C4 at the spec's test response `"Not JSON at all"`. -/
theorem extract_skills_parse_failure_fallback_witness :
    json_loads "Not JSON at all" = none ∧
    extract_skills "cv" "key" (constClient "Not JSON at all")
      = .ok (Json.obj [("raw_response", Json.str "Not JSON at all")]) :=
  ⟨rfl,
   extract_skills_parse_failure_fallback "cv" "key" (constClient "Not JSON at all")
     ⟨"Not JSON at all"⟩ [] rfl rfl⟩

/-- Claim C1 (counterexample): the result of `extract_skills` is not
always a mapping.  The response `"[1, 2]"` parses as a JSON array, which
the code returns at the top level as-is — neither a mapping nor the
`raw_response` fallback. -/
theorem extract_skills_not_always_mapping :
    extract_skills "cv" "key" (constClient "[1, 2]")
      = .ok (Json.arr [Json.num "1", Json.num "2"]) ∧
    (Json.arr [Json.num "1", Json.num "2"]).isObj = false ∧
    Json.arr [Json.num "1", Json.num "2"]
      ≠ Json.obj [("raw_response", Json.str "[1, 2]")] := by
  refine ⟨rfl, rfl, ?_⟩
  intro h
  exact Json.noConfusion h

/-- Claim C1 (amended): whenever the response has at least one content
block, the result of `extract_skills` is exactly one of two outcomes —
the parsed JSON value as-is (of whatever top-level type, mapping or not),
or the single-key fallback mapping wrapping the original string when
parsing fails. -/
theorem extract_skills_result_shapes
    (cv_text api_key : String) (client : String → ApiRequest → ApiMessage)
    (b : ContentBlock) (rest : List ContentBlock)
    (hresp : (client api_key (anthropicRequest skillsPrompt cv_text)).content = b :: rest) :
    (∃ v, json_loads b.text = some v ∧ extract_skills cv_text api_key client = .ok v) ∨
    (json_loads b.text = none ∧
      extract_skills cv_text api_key client
        = .ok (Json.obj [("raw_response", Json.str b.text)])) := by
  cases hp : json_loads b.text with
  | none =>
    exact Or.inr ⟨rfl, by simp [extract_skills, extract_cv_with_llm, hresp, hp]⟩
  | some v =>
    exact Or.inl ⟨v, rfl, by simp [extract_skills, extract_cv_with_llm, hresp, hp]⟩

/-- Witness for the amended C1 at the array-shaped response `"[1, 2]"`. -/
theorem extract_skills_result_shapes_witness :
    (∃ v, json_loads "[1, 2]" = some v ∧
      extract_skills "cv" "key" (constClient "[1, 2]") = .ok v) ∨
    (json_loads "[1, 2]" = none ∧
      extract_skills "cv" "key" (constClient "[1, 2]")
        = .ok (Json.obj [("raw_response", Json.str "[1, 2]")])) :=
  extract_skills_result_shapes "cv" "key" (constClient "[1, 2]") ⟨"[1, 2]"⟩ [] rfl
